import Mathlib

/-!
Shallow embedding of `src/client/src/nv_ingest_client/util/image_disk_utils.py`
(module `nv_ingest_client.util.image_disk_utils`).

Modelling conventions:
* Python values flowing through the dynamically-typed record structures are
  embedded as the inductive `JValue` (strings, ints, bools, None, lists,
  dicts-as-association-lists).
* Python exceptions are the inductive `PyErr`; computations that can raise are
  `Except PyErr`-valued, and each `try/except` block of the source is a
  `match` that converts an error into the log line the `except` clause emits.
* The filesystem is modelled as the record `FS` of created directories and
  written files; `os.makedirs` and the image write are total state updates
  (operating-system-level I/O failure is outside the embedding).
* The PIL image library is a parameter `ImageLib`: `openOk` says whether
  `Image.open` succeeds on given bytes, `saveOk` whether `image.save`
  succeeds for given bytes, destination path and format name.  Theorems
  quantify over this parameter, so they hold for every behaviour of the
  library.
* `logging` calls append tagged messages to a log list; `str()` of nested
  containers is abridged to a tag (no claim depends on it).
-/

/-- A dynamically-typed Python value, as it appears in the record structures
consumed by the module: strings, integers, booleans, `None`, lists, and
dicts (as association lists in insertion order). -/
inductive JValue where
  | str (s : String)
  | int (n : Int)
  | bool (b : Bool)
  | null
  | list (xs : List JValue)
  | dict (kvs : List (String × JValue))

/-- Python exceptions that the embedded code can raise. -/
inductive PyErr where
  | attributeError
  | typeError
  | keyError (k : String)
  | binasciiError
  | valueError
  | unidentifiedImage
  | saveFailed
deriving DecidableEq, Repr

/-- Rendering of an exception for the f-string of a log line. -/
def pyErrMsg : PyErr → String
  | .attributeError => "AttributeError"
  | .typeError => "TypeError"
  | .keyError k => "KeyError: " ++ k
  | .binasciiError => "binascii.Error: Invalid base64-encoded string"
  | .valueError => "ValueError"
  | .unidentifiedImage => "UnidentifiedImageError"
  | .saveFailed => "Image save failed"

/-- Python truthiness (`if not x`): `None`, `False`, `0`, empty string, empty
list and empty dict are falsy, everything else truthy. -/
def pyTruthy : JValue → Bool
  | .null => false
  | .bool b => b
  | .int n => n != 0
  | .str s => s != ""
  | .list xs => !xs.isEmpty
  | .dict kvs => !kvs.isEmpty

/-- Python `x == "lit"` for a string literal: true exactly when `x` is the
same string (comparison with a value of another type is `False`). -/
def JValue.isStr (v : JValue) (lit : String) : Bool :=
  match v with
  | .str s => s == lit
  | _ => false

/-- Python `str(x)` as used in f-strings; exact for strings, ints, bools and
`None`; nested containers are abridged to a tag (no filename in any claim
contains a container). -/
def pyStr : JValue → String
  | .str s => s
  | .int n => toString n
  | .bool b => if b then "True" else "False"
  | .null => "None"
  | .list _ => "<list>"
  | .dict _ => "<dict>"

/-- Python `obj.get(key, default)`: defined on dicts, raises
`AttributeError` on every other value. -/
def pyGet (v : JValue) (key : String) (dflt : JValue) : Except PyErr JValue :=
  match v with
  | .dict kvs => .ok ((kvs.lookup key).getD dflt)
  | _ => .error .attributeError

/-- The characters after the last slash of a character list. -/
def basenameChars (cs : List Char) : List Char :=
  cs.foldl (fun acc c => if c = '/' then [] else acc ++ [c]) []

/-- Python `os.path.basename` (POSIX): the part of the string after the last
slash; raises `TypeError` on a non-string argument. -/
def pyBasename (v : JValue) : Except PyErr String :=
  match v with
  | .str s => .ok (String.mk (basenameChars s.toList))
  | _ => .error .typeError

/-- Lower-casing of a string, character by character. -/
def strLower (s : String) : String := String.mk (s.toList.map Char.toLower)

/-- Upper-casing of a string, character by character. -/
def strUpper (s : String) : String := String.mk (s.toList.map Char.toUpper)

/-- Python `x.lower()`: defined on strings, raises `AttributeError`
otherwise. -/
def pyLower (v : JValue) : Except PyErr String :=
  match v with
  | .str s => .ok (strLower s)
  | _ => .error .attributeError

/-- Python `os.path.join a b` for the two-argument uses in this module. -/
def pathJoin (a b : String) : String :=
  if b.toList.head? = some '/' then b
  else if a = "" then b
  else if a.toList.getLast? = some '/' then a ++ b
  else a ++ "/" ++ b

/-- Strip leading and trailing whitespace from a character list. -/
def trimChars (cs : List Char) : List Char :=
  ((cs.dropWhile Char.isWhitespace).reverse.dropWhile Char.isWhitespace).reverse

/-- Modelled from the spec: the collaborator filename-sanitization routine
`get_valid_filename` (imported from `nv_ingest_client.client.util.processing`,
which is not part of this module): a deterministic, idempotent map to a
filesystem-safe path segment — surrounding whitespace is stripped, inner
spaces become underscores, and characters other than alphanumerics, dot,
underscore and dash are removed. -/
def get_valid_filename (s : String) : String :=
  String.mk (((trimChars s.toList).map (fun c => if c = ' ' then '_' else c)).filter
    (fun c => c.isAlphanum || c = '.' || c = '_' || c = '-'))

/-- Value of a base64 alphabet character. -/
def b64Index (c : Char) : Option Nat :=
  if 'A' ≤ c ∧ c ≤ 'Z' then some (c.toNat - 65)
  else if 'a' ≤ c ∧ c ≤ 'z' then some (c.toNat - 97 + 26)
  else if '0' ≤ c ∧ c ≤ '9' then some (c.toNat - 48 + 52)
  else if c = '+' then some 62
  else if c = '/' then some 63
  else none

/-- Turn a list of base64 sextet values into bytes: each full group of four
sextets yields three bytes, a trailing group of two or three sextets yields
one or two bytes. -/
def b64Quads : List Nat → List Nat
  | a :: b :: c :: d :: rest =>
      (a * 4 + b / 16) :: ((b % 16) * 16 + c / 4) :: ((c % 4) * 64 + d) :: b64Quads rest
  | [a, b] => [a * 4 + b / 16]
  | [a, b, c] => [a * 4 + b / 16, (b % 16) * 16 + c / 4]
  | _ => []

/-- Modelled from the spec: `base64.b64decode` from the Python standard
library (not part of this module) applied to a string — decodes standard
base64 and fails when the string is not valid base64 (non-ASCII input,
or data whose length after discarding non-alphabet characters does not
match its `=` padding). -/
def pyB64decodeStr (s : String) : Except PyErr (List Nat) :=
  if s.toList.any (fun c => c.toNat ≥ 128) then .error .valueError
  else
    let cs := s.toList.filter (fun c => (b64Index c).isSome || c == '=')
    let main := cs.takeWhile (fun c => c != '=')
    let pad := cs.length - main.length
    let r := main.length % 4
    if r == 1 then .error .binasciiError
    else if r == 2 && pad != 2 then .error .binasciiError
    else if r == 3 && pad != 1 then .error .binasciiError
    else if r == 0 && pad != 0 then .error .binasciiError
    else .ok (b64Quads (main.filterMap b64Index))

/-- `base64.b64decode(image_content)`: the content must be a string (a
non-string payload raises `TypeError`). -/
def pyB64decode (v : JValue) : Except PyErr (List Nat) :=
  match v with
  | .str s => pyB64decodeStr s
  | _ => .error .typeError

/-- The PIL collaborator, as a parameter: whether `Image.open` succeeds on
given bytes, and whether `image.save` succeeds for given bytes, destination
path and format name. -/
structure ImageLib where
  openOk : List Nat → Bool
  saveOk : List Nat → String → String → Bool

/-- The filesystem effects of one call: directories created by
`os.makedirs(..., exist_ok=True)` and files written by `image.save`
(path paired with the format name passed to the write). -/
structure FS where
  dirs : List String
  files : List (String × String)
deriving DecidableEq, Repr

def emptyFS : FS := { dirs := [], files := [] }

/-- `os.makedirs(path, exist_ok=True)`: records the directory if not yet
present. -/
def makeDirs (fs : FS) (path : String) : FS :=
  if fs.dirs.contains path then fs else { fs with dirs := fs.dirs ++ [path] }

/-- A successful `image.save(path, format=fmt)` appends a write event. -/
def writeFile (fs : FS) (path fmt : String) : FS :=
  { fs with files := fs.files ++ [(path, fmt)] }

/-- One emitted log line, tagged with its level. -/
inductive LogEvent where
  | warning (msg : String)
  | error (msg : String)
  | info (msg : String)
  | debug (msg : String)
deriving DecidableEq, Repr

/-- The mutable state of one exporter call: the `image_counts` dict, the
filesystem effects so far, and the log. -/
structure ExportState where
  counts : List (String × Int)
  fs : FS
  logs : List LogEvent
deriving DecidableEq, Repr

/-- The keyword arguments of `save_images_to_disk`, with the source
defaults. -/
structure Config where
  save_charts : Bool := true
  save_tables : Bool := true
  save_infographics : Bool := true
  save_page_images : Bool := false
  save_raw_images : Bool := false
  count_images : Bool := true
  organize_by_type : Bool := true
deriving DecidableEq, Repr

/-- The initial `image_counts` dict of the source, in insertion order. -/
def image_counts_init : List (String × Int) :=
  [("chart", 0), ("table", 0), ("infographic", 0), ("page_image", 0),
   ("image", 0), ("total", 0)]

/-- Python `d[key] += 1` on a string-keyed dict: increments the (first)
binding of `key`, or fails when the key is absent. -/
def dictIncrStr : List (String × Int) → String → Option (List (String × Int))
  | [], _ => none
  | (k, v) :: rest, key =>
      if k == key then some ((k, v + 1) :: rest)
      else
        match dictIncrStr rest key with
        | some r => some ((k, v) :: r)
        | none => none

/-- `image_counts[subtype] += 1` where `subtype` is a dynamic value: a
non-string or absent key raises (`KeyError`). -/
def dictIncr (d : List (String × Int)) (key : JValue) : Except PyErr (List (String × Int)) :=
  match key with
  | .str k =>
      match dictIncrStr d k with
      | some r => .ok r
      | none => .error (.keyError k)
  | _ => .error (.keyError (pyStr key))

/-- `image_counts[key]` read access. -/
def dictGetInt (d : List (String × Int)) (key : String) : Except PyErr Int :=
  match d.lookup key with
  | some v => .ok v
  | none => .error (.keyError key)

/-- The information the per-record body of `save_images_to_disk` extracts
before any side effect: the raw content value, the sanitized source name,
the (possibly normalized) `subtype` used as category, the page number and
the lower-cased image type. -/
structure DocInfo where
  content : JValue
  clean_source_name : String
  category : JValue
  page_number : JValue
  image_type : String

/-- Lines 112-131 of the source: the `should_save` cascade, returning the
decision together with the `subtype` variable after the raw-image branch may
have normalized it to `"image"`. -/
def applyFiltering (cfg : Config) (doc_type subtype : JValue) : Bool × JValue :=
  if subtype.isStr "chart" && cfg.save_charts then (true, subtype)
  else if subtype.isStr "table" && cfg.save_tables then (true, subtype)
  else if subtype.isStr "infographic" && cfg.save_infographics then (true, subtype)
  else if subtype.isStr "page_image" && cfg.save_page_images then (true, subtype)
  else if doc_type.isStr "image"
      && !(subtype.isStr "chart" || subtype.isStr "table"
          || subtype.isStr "infographic" || subtype.isStr "page_image")
      && cfg.save_raw_images then (true, .str "image")
  else (false, subtype)

/-- Lines 95-136 of the source: the side-effect-free prefix of the loop
body — metadata extraction, the no-content skip, naming, filtering and
image-format determination.  `.ok none` is a `continue`, an error is caught
by the outer per-record `except`. -/
def extractInfo (cfg : Config) (idx : Nat) (doc : JValue) : Except PyErr (Option DocInfo) :=
  match pyGet doc "metadata" (.dict []) with
  | .error e => .error e
  | .ok metadata =>
  match pyGet doc "document_type" (.str "unknown") with
  | .error e => .error e
  | .ok doc_type =>
  match pyGet metadata "content" .null with
  | .error e => .error e
  | .ok image_content =>
  if !pyTruthy image_content then .ok none
  else
  match pyGet metadata "source_metadata" (.dict []) with
  | .error e => .error e
  | .ok source_metadata =>
  match pyGet source_metadata "source_id" (.str ("document_" ++ toString idx)) with
  | .error e => .error e
  | .ok source_id =>
  match pyBasename source_id with
  | .error e => .error e
  | .ok base =>
  match pyGet metadata "content_metadata" (.dict []) with
  | .error e => .error e
  | .ok content_metadata =>
  match pyGet content_metadata "subtype" (.str "image") with
  | .error e => .error e
  | .ok subtype =>
  match pyGet content_metadata "page_number" (.int 0) with
  | .error e => .error e
  | .ok page_number =>
  match applyFiltering cfg doc_type subtype with
  | (false, _) => .ok none
  | (true, category) =>
  if doc_type.isStr "image" then
    match pyGet metadata "image_metadata" (.dict []) with
    | .error e => .error e
    | .ok image_metadata =>
    match pyGet image_metadata "image_type" (.str "png") with
    | .error e => .error e
    | .ok it =>
    match pyLower it with
    | .error e => .error e
    | .ok image_type =>
      .ok (some { content := image_content, clean_source_name := get_valid_filename base,
                  category := category, page_number := page_number,
                  image_type := image_type })
  else
    .ok (some { content := image_content, clean_source_name := get_valid_filename base,
                category := category, page_number := page_number, image_type := "png" })

/-- Lines 138-148 of the source: build the destination path, creating the
per-type subdirectory when organizing by type.  `os.path.join` on a
non-string `subtype` raises (caught by the outer per-record `except`, before
any effect). -/
def buildPath (organize_by_type : Bool) (output_directory : String) (idx : Nat)
    (info : DocInfo) (fs : FS) : Except PyErr (String × FS) :=
  if organize_by_type then
    match info.category with
    | .str sub =>
        let type_dir := pathJoin output_directory sub
        let fs1 := makeDirs fs type_dir
        let image_filename := info.clean_source_name ++ "_p" ++ pyStr info.page_number
          ++ "_" ++ toString idx ++ "." ++ info.image_type
        .ok (pathJoin type_dir image_filename, fs1)
    | _ => .error .typeError
  else
    let image_filename := info.clean_source_name ++ "_" ++ pyStr info.category
      ++ "_p" ++ pyStr info.page_number ++ "_" ++ toString idx ++ "." ++ info.image_type
    .ok (pathJoin output_directory image_filename, fs)

/-- The error log line of the inner `except` clause (line 166). -/
def failSaveMsg (category : JValue) (clean_source_name : String) (e : PyErr) : String :=
  "Failed to save " ++ pyStr category ++ " image for " ++ clean_source_name
    ++ ": " ++ pyErrMsg e

/-- Lines 150-166 of the source: the inner `try` — decode the base64
payload, open it as an image, save it with the mapped format name, bump the
two counters, log; any raise inside the block is caught by the inner
`except`, which logs an error, keeping the effects made before the raise. -/
def innerSave (lib : ImageLib) (info : DocInfo) (image_path : String)
    (st : ExportState) : ExportState :=
  match pyB64decode info.content with
  | .error e =>
      { st with logs := st.logs ++ [.error (failSaveMsg info.category info.clean_source_name e)] }
  | .ok image_data =>
    if !lib.openOk image_data then
      { st with logs := st.logs ++ [.error (failSaveMsg info.category info.clean_source_name .unidentifiedImage)] }
    else
      let image_ext := if info.image_type == "jpeg" then "jpg" else info.image_type
      let fmt := strUpper image_ext
      if !lib.saveOk image_data image_path fmt then
        { st with logs := st.logs ++ [.error (failSaveMsg info.category info.clean_source_name .saveFailed)] }
      else
        let st1 := { st with fs := writeFile st.fs image_path fmt }
        match dictIncr st1.counts info.category with
        | .error e =>
            { st1 with logs := st1.logs ++ [.error (failSaveMsg info.category info.clean_source_name e)] }
        | .ok c1 =>
          let st2 := { st1 with counts := c1 }
          match dictIncrStr st2.counts "total" with
          | none =>
              { st2 with logs := st2.logs ++ [.error (failSaveMsg info.category info.clean_source_name (.keyError "total"))] }
          | some c2 =>
              { st2 with
                counts := c2
                logs := st2.logs ++ [.debug ("Saved " ++ pyStr info.category ++ " image: " ++ image_path)] }

/-- The error log line of the outer per-record `except` clause (line 169). -/
def failDocMsg (idx : Nat) (e : PyErr) : String :=
  "Failed to process document " ++ toString idx ++ ": " ++ pyErrMsg e

/-- One iteration of the loop over `response_data` (lines 94-170): the outer
`try` around the whole record; an uncaught raise from the body becomes an
error log mentioning the record index and the loop continues. -/
def processDocument (lib : ImageLib) (cfg : Config) (output_directory : String)
    (idx : Nat) (doc : JValue) (st : ExportState) : ExportState :=
  match extractInfo cfg idx doc with
  | .error e => { st with logs := st.logs ++ [.error (failDocMsg idx e)] }
  | .ok none => st
  | .ok (some info) =>
    match buildPath cfg.organize_by_type output_directory idx info st.fs with
    | .error e => { st with logs := st.logs ++ [.error (failDocMsg idx e)] }
    | .ok (image_path, fs1) => innerSave lib info image_path { st with fs := fs1 }

/-- The `for doc_idx, document in enumerate(response_data)` loop. -/
def processAll (lib : ImageLib) (cfg : Config) (output_directory : String)
    (docs : List JValue) (idx : Nat) (st : ExportState) : ExportState :=
  match docs with
  | [] => st
  | d :: rest =>
      processAll lib cfg output_directory rest (idx + 1)
        (processDocument lib cfg output_directory idx d st)

/-- Lines 173-180 of the source: the summary logging after the loop; the two
`image_counts["total"]` subscripts can raise only if the key were absent. -/
def finalLog (count_images : Bool) (output_directory : String)
    (counts : List (String × Int)) (logs : List LogEvent) : Except PyErr (List LogEvent) :=
  if count_images then
    match dictGetInt counts "total" with
    | .error e => .error e
    | .ok total =>
    if total > 0 then
      match dictGetInt counts "total" with
      | .error e => .error e
      | .ok total2 =>
      let l1 := logs ++ [.info ("Saved " ++ toString total2 ++ " images to " ++ output_directory)]
      Except.ok (counts.foldl
        (fun acc p =>
          if p.1 != "total" && p.2 > 0 then
            acc ++ [.info ("  - " ++ p.1 ++ ": " ++ toString p.2)]
          else acc) l1)
    else
      Except.ok (logs ++ [.info "No images were saved"])
  else
    Except.ok logs

/-- `save_images_to_disk` (lines 24-183 of the source).  Returns the final
state; the returned `image_counts` dict is its `counts` field (the empty
mapping in the degenerate no-input case).  The result is `Except`-valued so
that an exception escaping the function would be visible as `.error`. -/
def save_images_to_disk (lib : ImageLib) (response_data : List JValue)
    (output_directory : String) (cfg : Config) : Except PyErr ExportState :=
  if response_data.isEmpty then
    .ok { counts := [], fs := emptyFS, logs := [.warning "No response data provided"] }
  else
    let fs1 := makeDirs emptyFS output_directory
    let st0 : ExportState := { counts := image_counts_init, fs := fs1, logs := [] }
    let st := processAll lib cfg output_directory response_data 0 st0
    (finalLog cfg.count_images output_directory st.counts st.logs).map
      (fun logs => { st with logs := logs })

/-- `save_images_from_response` (lines 186-207).  The envelope is expected
to be a dict with a `"data"` list; a non-dict envelope (no `in` operator /
subscript) or a non-list `"data"` value (not iterable as records) is
modelled as a `TypeError`. -/
def save_images_from_response (lib : ImageLib) (response : JValue)
    (output_directory : String) (cfg : Config) : Except PyErr ExportState :=
  match response with
  | .dict kvs =>
    match kvs.lookup "data" with
    | none => .ok { counts := [], fs := emptyFS, logs := [.warning "No data found in response"] }
    | some v =>
      if !pyTruthy v then
        .ok { counts := [], fs := emptyFS, logs := [.warning "No data found in response"] }
      else
        match v with
        | .list xs => save_images_to_disk lib xs output_directory cfg
        | _ => .error .typeError
  | _ => .error .typeError

/-- `save_images_from_ingestor_results` (lines 210-240): flatten the nested
results with the source loop (extend for a list element, append otherwise),
then delegate to `save_images_to_disk`. -/
def save_images_from_ingestor_results (lib : ImageLib) (results : List JValue)
    (output_directory : String) (cfg : Config) : Except PyErr ExportState :=
  let all_documents := results.foldl
    (fun acc doc_results =>
      match doc_results with
      | .list xs => acc ++ xs
      | v => acc ++ [v]) []
  save_images_to_disk lib all_documents output_directory cfg

/-! ## Invariants of the counters dict -/

/-- A dynamic value is one of the five category keys. -/
def inFive (v : JValue) : Bool :=
  v.isStr "chart" || v.isStr "table" || v.isStr "infographic"
    || v.isStr "page_image" || v.isStr "image"

/-- Shape invariant of `image_counts`: exactly the six keys of the source in
insertion order, the value under `"total"` being the sum of the five
per-category values. -/
def goodCounts (c : List (String × Int)) : Prop :=
  ∃ a b g d e : Int,
    c = [("chart", a), ("table", b), ("infographic", g), ("page_image", d),
         ("image", e), ("total", a + b + g + d + e)]

lemma goodCounts_init : goodCounts image_counts_init :=
  ⟨0, 0, 0, 0, 0, by decide⟩

lemma isStr_eq {v : JValue} {s : String} (h : v.isStr s = true) : v = .str s := by
  cases v <;> simp_all [JValue.isStr]

lemma applyFiltering_inFive (cfg : Config) (dt s cat : JValue)
    (h : applyFiltering cfg dt s = (true, cat)) : inFive cat = true := by
  unfold applyFiltering at h
  split_ifs at h with h1 h2 h3 h4 h5 <;>
      rw [Prod.mk.injEq] at h <;> rcases h with ⟨h6, rfl⟩ <;>
    first
      | decide
      | simp_all [inFive, JValue.isStr]

lemma extractInfo_inFive (cfg : Config) (idx : Nat) (doc : JValue) (info : DocInfo)
    (h : extractInfo cfg idx doc = .ok (some info)) : inFive info.category = true := by
  unfold extractInfo at h
  repeat' split at h
  all_goals simp_all
  all_goals (subst h; exact applyFiltering_inFive _ _ _ _ (by assumption))

lemma extractInfo_content (cfg : Config) (idx : Nat) (doc m c : JValue) (info : DocInfo)
    (hm : pyGet doc "metadata" (.dict []) = .ok m)
    (hc : pyGet m "content" .null = .ok c)
    (h : extractInfo cfg idx doc = .ok (some info)) : info.content = c := by
  unfold extractInfo at h
  repeat' split at h
  all_goals simp_all
  all_goals (subst h; simp_all)

lemma inFive_cases {v : JValue} (h : inFive v = true) :
    v = .str "chart" ∨ v = .str "table" ∨ v = .str "infographic"
      ∨ v = .str "page_image" ∨ v = .str "image" := by
  simp only [inFive, Bool.or_eq_true] at h
  rcases h with ((((h | h) | h) | h) | h) <;>
    [exact Or.inl (isStr_eq h);
     exact Or.inr (Or.inl (isStr_eq h));
     exact Or.inr (Or.inr (Or.inl (isStr_eq h)));
     exact Or.inr (Or.inr (Or.inr (Or.inl (isStr_eq h))));
     exact Or.inr (Or.inr (Or.inr (Or.inr (isStr_eq h))))]

lemma innerSave_goodCounts (lib : ImageLib) (info : DocInfo) (p : String)
    (st : ExportState) (hg : goodCounts st.counts) (hf : inFive info.category = true) :
    goodCounts (innerSave lib info p st).counts := by
  obtain ⟨a, b, g, d, e, hcs⟩ := hg
  unfold innerSave
  cases hdec : pyB64decode info.content with
  | error err => exact ⟨a, b, g, d, e, hcs⟩
  | ok data =>
    cases hopen : lib.openOk data with
    | false => simp only [hopen, Bool.not_false, if_true]; exact ⟨a, b, g, d, e, hcs⟩
    | true =>
      simp only [hopen, Bool.not_true, Bool.false_eq_true, if_false]
      cases hsave : lib.saveOk data p (strUpper (if info.image_type == "jpeg" then "jpg" else info.image_type)) with
      | false => simp only [hsave, Bool.not_false, if_true]; exact ⟨a, b, g, d, e, hcs⟩
      | true =>
        simp only [hsave, Bool.not_true, Bool.false_eq_true, if_false]
        rcases inFive_cases hf with h5 | h5 | h5 | h5 | h5 <;>
          rw [h5] <;> simp [writeFile, hcs, dictIncr, dictIncrStr, goodCounts] <;> ring

lemma processDocument_goodCounts (lib : ImageLib) (cfg : Config) (dir : String)
    (idx : Nat) (doc : JValue) (st : ExportState) (hg : goodCounts st.counts) :
    goodCounts (processDocument lib cfg dir idx doc st).counts := by
  unfold processDocument
  cases hx : extractInfo cfg idx doc with
  | error e => exact hg
  | ok o =>
    cases o with
    | none => exact hg
    | some info =>
      dsimp only
      cases hb : buildPath cfg.organize_by_type dir idx info st.fs with
      | error e => exact hg
      | ok pr =>
        obtain ⟨ip, fs1⟩ := pr
        exact innerSave_goodCounts lib info ip { st with fs := fs1 } hg
          (extractInfo_inFive cfg idx doc info hx)

lemma processAll_goodCounts (lib : ImageLib) (cfg : Config) (dir : String)
    (docs : List JValue) (idx : Nat) (st : ExportState) (hg : goodCounts st.counts) :
    goodCounts (processAll lib cfg dir docs idx st).counts := by
  induction docs generalizing idx st with
  | nil => exact hg
  | cons d rest ih =>
      exact ih (idx + 1) _ (processDocument_goodCounts lib cfg dir idx d st hg)

lemma finalLog_ok (ci : Bool) (dir : String) (counts : List (String × Int))
    (logs : List LogEvent) (hg : goodCounts counts) :
    ∃ l, finalLog ci dir counts logs = .ok l := by
  obtain ⟨a, b, g, d, e, hc⟩ := hg
  subst hc
  unfold finalLog
  cases ci with
  | false => exact ⟨logs, rfl⟩
  | true =>
    rw [show dictGetInt [("chart", a), ("table", b), ("infographic", g), ("page_image", d),
        ("image", e), ("total", a + b + g + d + e)] "total" = Except.ok (a + b + g + d + e) from rfl]
    dsimp only
    by_cases hp : a + b + g + d + e > 0
    · rw [if_pos hp]; exact ⟨_, rfl⟩
    · rw [if_neg hp]; exact ⟨_, rfl⟩

lemma save_images_to_disk_ok (lib : ImageLib) (rd : List JValue) (dir : String)
    (cfg : Config) : ∃ st, save_images_to_disk lib rd dir cfg = .ok st := by
  unfold save_images_to_disk
  by_cases he : rd.isEmpty
  · rw [if_pos he]; exact ⟨_, rfl⟩
  · rw [if_neg he]
    dsimp only
    obtain ⟨l, hl⟩ := finalLog_ok cfg.count_images dir
      (processAll lib cfg dir rd 0
        { counts := image_counts_init, fs := makeDirs emptyFS dir, logs := [] }).counts
      (processAll lib cfg dir rd 0
        { counts := image_counts_init, fs := makeDirs emptyFS dir, logs := [] }).logs
      (processAll_goodCounts lib cfg dir rd 0 _ goodCounts_init)
    rw [hl]
    exact ⟨_, rfl⟩

lemma save_images_to_disk_goodCounts (lib : ImageLib) (rd : List JValue) (dir : String)
    (cfg : Config) (st : ExportState) (h : save_images_to_disk lib rd dir cfg = .ok st)
    (hne : st.counts ≠ []) : goodCounts st.counts := by
  unfold save_images_to_disk at h
  by_cases he : rd.isEmpty
  · rw [if_pos he] at h
    cases h
    exact absurd rfl hne
  · rw [if_neg he] at h
    dsimp only at h
    obtain ⟨l, hl⟩ := finalLog_ok cfg.count_images dir
      (processAll lib cfg dir rd 0
        { counts := image_counts_init, fs := makeDirs emptyFS dir, logs := [] }).counts
      (processAll lib cfg dir rd 0
        { counts := image_counts_init, fs := makeDirs emptyFS dir, logs := [] }).logs
      (processAll_goodCounts lib cfg dir rd 0 _ goodCounts_init)
    rw [hl] at h
    simp only [Except.map, Except.ok.injEq] at h
    subst h
    exact processAll_goodCounts lib cfg dir rd 0 _ goodCounts_init

/-! ## Claim theorems -/

/-- A PIL behaviour where every open and save succeeds, for concrete runs. -/
def trueLib : ImageLib := { openOk := fun _ => true, saveOk := fun _ _ _ => true }

/-- C1: for every call to `save_images_to_disk` that returns a non-empty
counters mapping, the value under `"total"` equals the sum of the values
under the five category keys `"chart"`, `"table"`, `"infographic"`,
`"page_image"` and `"image"`. -/
theorem C1_counts_total_eq_sum (lib : ImageLib) (rd : List JValue) (dir : String)
    (cfg : Config) (st : ExportState) (h : save_images_to_disk lib rd dir cfg = .ok st)
    (hne : st.counts ≠ []) :
    ∃ a b g d e : Int,
      st.counts.lookup "chart" = some a ∧ st.counts.lookup "table" = some b ∧
      st.counts.lookup "infographic" = some g ∧ st.counts.lookup "page_image" = some d ∧
      st.counts.lookup "image" = some e ∧
      st.counts.lookup "total" = some (a + b + g + d + e) := by
  obtain ⟨a, b, g, d, e, hc⟩ := save_images_to_disk_goodCounts lib rd dir cfg st h hne
  refine ⟨a, b, g, d, e, ?_, ?_, ?_, ?_, ?_, ?_⟩ <;> rw [hc] <;> rfl

/-- Witness for C1: a concrete call returning the all-zero (non-empty)
mapping, where the total is the sum of the five categories. -/
theorem C1_counts_total_eq_sum_witness :
    (save_images_to_disk trueLib [JValue.dict []] "out" {} =
      .ok { counts := image_counts_init, fs := { dirs := ["out"], files := [] },
            logs := [LogEvent.info "No images were saved"] }) ∧
    ∃ a b g d e : Int,
      image_counts_init.lookup "chart" = some a ∧ image_counts_init.lookup "table" = some b ∧
      image_counts_init.lookup "infographic" = some g ∧
      image_counts_init.lookup "page_image" = some d ∧
      image_counts_init.lookup "image" = some e ∧
      image_counts_init.lookup "total" = some (a + b + g + d + e) :=
  ⟨rfl,
   C1_counts_total_eq_sum trueLib [JValue.dict []] "out" {}
     { counts := image_counts_init, fs := { dirs := ["out"], files := [] },
       logs := [LogEvent.info "No images were saved"] } rfl (by decide)⟩

/-- C4: a call to the exporter always returns a counters mapping (never an
exception); a failure while processing one record is caught and logged with
the record index, the record is skipped with no other state change, and the
loop continues with the remaining records. -/
theorem C4_never_raises_and_catches_per_record :
    (∀ (lib : ImageLib) (rd : List JValue) (dir : String) (cfg : Config),
        ∃ st, save_images_to_disk lib rd dir cfg = .ok st) ∧
    (∀ (lib : ImageLib) (cfg : Config) (dir : String) (idx : Nat) (doc : JValue)
        (st : ExportState) (e : PyErr), extractInfo cfg idx doc = .error e →
        processDocument lib cfg dir idx doc st =
          { st with logs := st.logs ++ [.error (failDocMsg idx e)] }) ∧
    (∀ (lib : ImageLib) (cfg : Config) (dir : String) (d : JValue) (docs : List JValue)
        (idx : Nat) (st : ExportState),
        processAll lib cfg dir (d :: docs) idx st =
          processAll lib cfg dir docs (idx + 1) (processDocument lib cfg dir idx d st)) := by
  refine ⟨fun lib rd dir cfg => save_images_to_disk_ok lib rd dir cfg, ?_, ?_⟩
  · intro lib cfg dir idx doc st e h
    unfold processDocument
    rw [h]
  · intro lib cfg dir d docs idx st
    rfl

/-- Witness for C4: a malformed record (an integer where a dict is expected)
raises inside the loop body; the call still returns, and the per-record
handler turns the failure into an error log naming index 0. -/
theorem C4_never_raises_and_catches_per_record_witness :
    (∃ st, save_images_to_disk trueLib [JValue.int 5] "out" {} = .ok st) ∧
    processDocument trueLib {} "out" 0 (JValue.int 5)
        { counts := image_counts_init, fs := emptyFS, logs := [] } =
      { counts := image_counts_init, fs := emptyFS,
        logs := [LogEvent.error (failDocMsg 0 .attributeError)] } :=
  ⟨C4_never_raises_and_catches_per_record.1 trueLib [JValue.int 5] "out" {},
   C4_never_raises_and_catches_per_record.2.1 trueLib {} "out" 0 (JValue.int 5)
     { counts := image_counts_init, fs := emptyFS, logs := [] } .attributeError rfl⟩

lemma extractInfo_no_content (cfg : Config) (idx : Nat) (doc m c : JValue)
    (hm : pyGet doc "metadata" (.dict []) = .ok m)
    (hc : pyGet m "content" .null = .ok c) (ht : pyTruthy c = false) :
    extractInfo cfg idx doc = .ok none := by
  cases doc with
  | str s => exact absurd hm (by simp [pyGet])
  | int n => exact absurd hm (by simp [pyGet])
  | bool b => exact absurd hm (by simp [pyGet])
  | null => exact absurd hm (by simp [pyGet])
  | list xs => exact absurd hm (by simp [pyGet])
  | dict kvs =>
    simp only [pyGet, Except.ok.injEq] at hm
    subst hm
    unfold extractInfo
    simp only [pyGet] at hc ⊢
    rw [hc]
    simp [ht]

/-- C9: a record whose metadata carries no (truthy) content payload is
skipped with no state change at all: no log, no file, no directory, no
counter movement. -/
theorem C9_no_content_skipped (lib : ImageLib) (cfg : Config) (dir : String) (idx : Nat)
    (doc m c : JValue) (st : ExportState)
    (hm : pyGet doc "metadata" (.dict []) = .ok m)
    (hc : pyGet m "content" .null = .ok c) (ht : pyTruthy c = false) :
    processDocument lib cfg dir idx doc st = st := by
  unfold processDocument
  rw [extractInfo_no_content cfg idx doc m c hm hc ht]

/-- Witness for C9: an empty record (empty metadata, hence content `None`)
leaves the state untouched. -/
theorem C9_no_content_skipped_witness :
    (pyGet (JValue.dict []) "metadata" (JValue.dict []) = .ok (JValue.dict [])) ∧
    (pyGet (JValue.dict []) "content" JValue.null = .ok JValue.null) ∧
    (pyTruthy JValue.null = false) ∧
    processDocument trueLib {} "out" 0 (JValue.dict [])
        { counts := image_counts_init, fs := emptyFS, logs := [] } =
      { counts := image_counts_init, fs := emptyFS, logs := [] } :=
  ⟨rfl, rfl, rfl,
   C9_no_content_skipped trueLib {} "out" 0 (JValue.dict []) (JValue.dict []) JValue.null
     { counts := image_counts_init, fs := emptyFS, logs := [] } rfl rfl rfl⟩

lemma dictIncr_inFive (counts : List (String × Int)) (v : JValue)
    (hg : goodCounts counts) (hf : inFive v = true) :
    ∃ c, dictIncr counts v = .ok c := by
  obtain ⟨a, b, g, d, e, hc⟩ := hg
  subst hc
  rcases inFive_cases hf with h | h | h | h | h <;> subst h <;> exact ⟨_, rfl⟩

/-- The record of the page-image scenario: document_type `"image"`, a valid
base64 payload, source `a/b/report.pdf`, subtype `"page_image"`, page 2,
image type `"png"`. -/
def pngRecord : JValue := .dict [
  ("document_type", .str "image"),
  ("metadata", .dict [
    ("content", .str "iVBORw0KGgo="),
    ("source_metadata", .dict [("source_id", .str "a/b/report.pdf")]),
    ("content_metadata", .dict [("subtype", .str "page_image"), ("page_number", .int 2)]),
    ("image_metadata", .dict [("image_type", .str "png")])])]

/-- C10: whenever a record passes the inclusion decision, the effective
category is one of the five keys already present in the counters mapping,
so the per-category increment finds its key and cannot fail. -/
theorem C10_category_always_counted (cfg : Config) (idx : Nat) (doc : JValue)
    (info : DocInfo) (counts : List (String × Int))
    (h : extractInfo cfg idx doc = .ok (some info)) (hg : goodCounts counts) :
    inFive info.category = true ∧ ∃ c, dictIncr counts info.category = .ok c :=
  ⟨extractInfo_inFive cfg idx doc info h,
   dictIncr_inFive counts info.category hg (extractInfo_inFive cfg idx doc info h)⟩

/-- Witness for C10 at the concrete page-image record and the initial
counters. -/
theorem C10_category_always_counted_witness :
    (extractInfo { save_page_images := true } 0 pngRecord =
      .ok (some { content := .str "iVBORw0KGgo=", clean_source_name := "report.pdf",
                  category := .str "page_image", page_number := .int 2,
                  image_type := "png" })) ∧
    (inFive (JValue.str "page_image") = true ∧
      ∃ c, dictIncr image_counts_init (JValue.str "page_image") = .ok c) :=
  ⟨rfl,
   C10_category_always_counted { save_page_images := true } 0 pngRecord
     { content := .str "iVBORw0KGgo=", clean_source_name := "report.pdf",
       category := .str "page_image", page_number := .int 2, image_type := "png" }
     image_counts_init rfl ⟨0, 0, 0, 0, 0, by decide⟩⟩

/-- The inclusion rule exactly as claim C2 states it: a record is saved iff
its subtype is one of the four named categories with the corresponding flag
enabled (the effective category being that subtype), or its document_type is
`"image"`, its subtype none of those four, and the raw-image flag is enabled
(the effective category becoming `"image"`); every other combination is
excluded (`none`). -/
def inclusionSpec (cfg : Config) (doc_type subtype : JValue) : Option JValue :=
  if subtype.isStr "chart" && cfg.save_charts
      || subtype.isStr "table" && cfg.save_tables
      || subtype.isStr "infographic" && cfg.save_infographics
      || subtype.isStr "page_image" && cfg.save_page_images then
    some subtype
  else if doc_type.isStr "image"
      && !(subtype.isStr "chart" || subtype.isStr "table"
          || subtype.isStr "infographic" || subtype.isStr "page_image")
      && cfg.save_raw_images then
    some (.str "image")
  else none

/-- C2: the inclusion decision of the source (the `should_save` cascade with
its `subtype` normalization) coincides with the rule stated by the spec, and
an excluded record is skipped with no state change at all. -/
theorem C2_inclusion_rule :
    (∀ (cfg : Config) (doc_type subtype : JValue),
        applyFiltering cfg doc_type subtype =
          match inclusionSpec cfg doc_type subtype with
          | some cat => (true, cat)
          | none => (false, subtype)) ∧
    (∀ (lib : ImageLib) (cfg : Config) (dir : String) (idx : Nat) (doc : JValue)
        (st : ExportState), extractInfo cfg idx doc = .ok none →
        processDocument lib cfg dir idx doc st = st) := by
  constructor
  · intro cfg dt s
    unfold applyFiltering inclusionSpec
    cases h1 : s.isStr "chart" && cfg.save_charts <;>
      cases h2 : s.isStr "table" && cfg.save_tables <;>
      cases h3 : s.isStr "infographic" && cfg.save_infographics <;>
      cases h4 : s.isStr "page_image" && cfg.save_page_images <;>
      cases h5 : dt.isStr "image"
        && !(s.isStr "chart" || s.isStr "table"
            || s.isStr "infographic" || s.isStr "page_image")
        && cfg.save_raw_images <;>
      simp [h1, h2, h3, h4, h5]
  · intro lib cfg dir idx doc st h
    unfold processDocument
    rw [h]

/-- Witness for C2: a chart record with the chart flag disabled (and no
raw-image fallback) is excluded and leaves the state unchanged; the rule
also matches the spec rule at that input. -/
theorem C2_inclusion_rule_witness :
    (applyFiltering { save_charts := false } JValue.null (.str "chart") =
      match inclusionSpec { save_charts := false } JValue.null (.str "chart") with
      | some cat => (true, cat)
      | none => (false, .str "chart")) ∧
    (extractInfo { save_charts := false } 0
        (JValue.dict [("metadata", .dict [("content", .str "abc"),
          ("content_metadata", .dict [("subtype", .str "chart")])])]) = .ok none) ∧
    processDocument trueLib { save_charts := false } "out" 0
        (JValue.dict [("metadata", .dict [("content", .str "abc"),
          ("content_metadata", .dict [("subtype", .str "chart")])])])
        { counts := image_counts_init, fs := emptyFS, logs := [] } =
      { counts := image_counts_init, fs := emptyFS, logs := [] } :=
  ⟨C2_inclusion_rule.1 { save_charts := false } JValue.null (.str "chart"), rfl,
   C2_inclusion_rule.2 trueLib { save_charts := false } "out" 0
     (JValue.dict [("metadata", .dict [("content", .str "abc"),
       ("content_metadata", .dict [("subtype", .str "chart")])])])
     { counts := image_counts_init, fs := emptyFS, logs := [] } rfl⟩

lemma innerSave_decode_error (lib : ImageLib) (info : DocInfo) (p : String)
    (st : ExportState) (e : PyErr) (h : pyB64decode info.content = .error e) :
    (innerSave lib info p st).counts = st.counts := by
  unfold innerSave
  rw [h]

/-- C5: a record whose content string is not valid base64 leaves every
counter unchanged, and the call does not raise (the per-record handlers
absorb the failure). -/
theorem C5_invalid_base64_leaves_counts (lib : ImageLib) (cfg : Config) (dir : String)
    (idx : Nat) (doc m : JValue) (st : ExportState) (s : String) (e : PyErr)
    (hm : pyGet doc "metadata" (.dict []) = .ok m)
    (hc : pyGet m "content" .null = .ok (.str s))
    (he : pyB64decodeStr s = .error e) :
    (processDocument lib cfg dir idx doc st).counts = st.counts := by
  unfold processDocument
  cases hx : extractInfo cfg idx doc with
  | error e2 => rfl
  | ok o =>
    cases o with
    | none => rfl
    | some info =>
      dsimp only
      cases hb : buildPath cfg.organize_by_type dir idx info st.fs with
      | error e2 => rfl
      | ok pr =>
        obtain ⟨ip, fs1⟩ := pr
        have hcont : info.content = .str s :=
          extractInfo_content cfg idx doc m (.str s) info hm hc hx
        have hdec : pyB64decode info.content = .error e := by
          rw [hcont]; exact he
        exact innerSave_decode_error lib info ip { st with fs := fs1 } e hdec

/-- Witness for C5: a chart record whose content `"abc"` is not valid
base64 (length 3 with no padding); its processing leaves the counters
untouched. -/
theorem C5_invalid_base64_leaves_counts_witness :
    (pyB64decodeStr "abc" = .error .binasciiError) ∧
    (processDocument trueLib {} "out" 0
        (JValue.dict [("metadata", .dict [("content", .str "abc"),
          ("content_metadata", .dict [("subtype", .str "chart")])])])
        { counts := image_counts_init, fs := emptyFS, logs := [] }).counts =
      image_counts_init :=
  ⟨rfl,
   C5_invalid_base64_leaves_counts trueLib {} "out" 0
     (JValue.dict [("metadata", .dict [("content", .str "abc"),
       ("content_metadata", .dict [("subtype", .str "chart")])])])
     (JValue.dict [("content", .str "abc"),
       ("content_metadata", .dict [("subtype", .str "chart")])])
     { counts := image_counts_init, fs := emptyFS, logs := [] } "abc" .binasciiError
     rfl rfl rfl⟩

/-- The flattening of nested ingestor results as the spec states it: each
element contributes its own elements (in order) when it is a list, and
itself otherwise, sublist after sublist. -/
def flattenSpec (results : List JValue) : List JValue :=
  results.flatMap (fun v =>
    match v with
    | .list xs => xs
    | v => [v])

lemma foldl_flatten (results : List JValue) (acc : List JValue) :
    results.foldl (fun acc doc_results =>
      match doc_results with
      | .list xs => acc ++ xs
      | v => acc ++ [v]) acc = acc ++ flattenSpec results := by
  induction results generalizing acc with
  | nil => simp [flattenSpec]
  | cons r rest ih =>
      cases r <;> simp [flattenSpec, ih, List.append_assoc]

/-- C7: the batch-results adapter flattens its nested input into one
combined list, each sublist in order followed by the next element, and
delegates that flat list to the exporter — so the enumeration indices used
in filenames follow the flattened positions; in particular a two-element
sublist followed by a single record flattens to the three records in
order. -/
theorem C7_flatten_preserves_order :
    (∀ (lib : ImageLib) (results : List JValue) (dir : String) (cfg : Config),
        save_images_from_ingestor_results lib results dir cfg =
          save_images_to_disk lib (flattenSpec results) dir cfg) ∧
    (∀ (r1 r2 : JValue) (kvs : List (String × JValue)),
        flattenSpec [.list [r1, r2], .dict kvs] = [r1, r2, .dict kvs]) := by
  constructor
  · intro lib results dir cfg
    unfold save_images_from_ingestor_results
    rw [foldl_flatten, List.nil_append]
  · intro r1 r2 kvs
    simp [flattenSpec]

/-- C8: the two degenerate no-input cases — an empty records list given to
the exporter, and an envelope whose data field is absent or empty given to
the response adapter — log a warning and return the empty mapping (not a
zeroed six-key one), with no directory created and no record processed. -/
theorem C8_degenerate_empty_inputs :
    (∀ (lib : ImageLib) (dir : String) (cfg : Config),
        save_images_to_disk lib [] dir cfg =
          .ok { counts := [], fs := emptyFS,
                logs := [.warning "No response data provided"] }) ∧
    (∀ (lib : ImageLib) (dir : String) (cfg : Config) (kvs : List (String × JValue)),
        (kvs.lookup "data" = none ∨
          ∃ v, kvs.lookup "data" = some v ∧ pyTruthy v = false) →
        save_images_from_response lib (.dict kvs) dir cfg =
          .ok { counts := [], fs := emptyFS,
                logs := [.warning "No data found in response"] }) := by
  constructor
  · intro lib dir cfg; rfl
  · intro lib dir cfg kvs h
    unfold save_images_from_response
    dsimp only
    rcases h with h | ⟨v, hv, hf⟩
    · rw [h]
    · rw [hv]
      simp [hf]

/-- Witness for C8: the envelope with an empty data list returns the empty
mapping with a warning, touching no directory. -/
theorem C8_degenerate_empty_inputs_witness :
    save_images_from_response trueLib (.dict [("data", .list [])]) "out" {} =
      .ok { counts := [], fs := emptyFS,
            logs := [.warning "No data found in response"] } :=
  C8_degenerate_empty_inputs.2 trueLib "out" {} [("data", .list [])]
    (Or.inr ⟨.list [], rfl, rfl⟩)

lemma pathJoin_suffix (a b : String) : ∃ pre, pathJoin a b = pre ++ b := by
  unfold pathJoin
  split_ifs with h1 h2 h3
  · exact ⟨"", (String.empty_append b).symm⟩
  · exact ⟨"", (String.empty_append b).symm⟩
  · exact ⟨a, rfl⟩
  · exact ⟨a ++ "/", rfl⟩

/-- The record of the jpeg scenario: a chart whose image type is `"jpeg"`. -/
def jpegRecord : JValue := .dict [
  ("document_type", .str "image"),
  ("metadata", .dict [
    ("content", .str "iVBORw0KGgo="),
    ("source_metadata", .dict [("source_id", .str "a/b/report.pdf")]),
    ("content_metadata", .dict [("subtype", .str "chart"), ("page_number", .int 0)]),
    ("image_metadata", .dict [("image_type", .str "jpeg")])])]

/-- Counterexample to C3 as stated: saving a record whose encoding name is
`"jpeg"` writes the destination path `out/chart/report.pdf_p0_0.jpeg` —
which does not end in `".jpg"` — and passes `"JPG"`, not `"JPEG"`, as the
format name of the write. -/
theorem C3_claim_counterexample :
    (save_images_to_disk trueLib [jpegRecord] "out" {} =
      .ok { counts := [("chart", 1), ("table", 0), ("infographic", 0),
                       ("page_image", 0), ("image", 0), ("total", 1)],
            fs := { dirs := ["out", "out/chart"],
                    files := [("out/chart/report.pdf_p0_0.jpeg", "JPG")] },
            logs := [.debug "Saved chart image: out/chart/report.pdf_p0_0.jpeg",
                     .info "Saved 1 images to out", .info "  - chart: 1"] }) ∧
    ((".jpg".toList).isSuffixOf ("out/chart/report.pdf_p0_0.jpeg".toList) = false) ∧
    ("JPG" ≠ "JPEG") :=
  ⟨rfl, by decide, by decide⟩

/-- C3 (amended): for every saved record whose determined encoding name is
`"jpeg"`, the exporter maps the name to extension `"jpg"` and passes its
upper-casing `"JPG"` as the format name of the image write, while the
destination path it writes — built from the raw encoding name — ends in
`".jpeg"`. -/
theorem C3_jpeg_extension_mapping :
    (∀ (organize : Bool) (dir : String) (idx : Nat) (info : DocInfo) (fs : FS)
        (p : String) (fs1 : FS), info.image_type = "jpeg" →
        buildPath organize dir idx info fs = .ok (p, fs1) →
        ∃ stem, p = stem ++ ".jpeg") ∧
    ((if ("jpeg" : String) == "jpeg" then "jpg" else "jpeg") = "jpg"
      ∧ strUpper "jpg" = "JPG") ∧
    (∀ (lib : ImageLib) (info : DocInfo) (p : String) (st : ExportState),
        info.image_type = "jpeg" →
        (innerSave lib info p st).fs.files = st.fs.files ∨
        (innerSave lib info p st).fs.files = st.fs.files ++ [(p, "JPG")]) := by
  refine ⟨?_, ⟨rfl, rfl⟩, ?_⟩
  · intro organize dir idx info fs p fs1 himg hb
    unfold buildPath at hb
    cases organize with
    | true =>
      cases hcat : info.category with
      | str sub =>
        rw [hcat] at hb
        simp only [if_true, eq_self_iff_true, Except.ok.injEq, Prod.mk.injEq] at hb
        obtain ⟨hp, hf⟩ := hb
        subst hp
        obtain ⟨pre, hpre⟩ := pathJoin_suffix (pathJoin dir sub)
          (info.clean_source_name ++ "_p" ++ pyStr info.page_number
            ++ "_" ++ toString idx ++ "." ++ info.image_type)
        rw [hpre, himg]
        exact ⟨pre ++ (info.clean_source_name ++ "_p" ++ pyStr info.page_number
          ++ "_" ++ toString idx), by simp [String.append_assoc]⟩
      | int n => rw [hcat] at hb; simp at hb
      | bool b => rw [hcat] at hb; simp at hb
      | null => rw [hcat] at hb; simp at hb
      | list xs => rw [hcat] at hb; simp at hb
      | dict kvs => rw [hcat] at hb; simp at hb
    | false =>
      simp only [Bool.false_eq_true, if_false, Except.ok.injEq, Prod.mk.injEq] at hb
      obtain ⟨hp, hf⟩ := hb
      subst hp
      obtain ⟨pre, hpre⟩ := pathJoin_suffix dir
        (info.clean_source_name ++ "_" ++ pyStr info.category ++ "_p"
          ++ pyStr info.page_number ++ "_" ++ toString idx ++ "." ++ info.image_type)
      rw [hpre, himg]
      exact ⟨pre ++ (info.clean_source_name ++ "_" ++ pyStr info.category ++ "_p"
        ++ pyStr info.page_number ++ "_" ++ toString idx), by simp [String.append_assoc]⟩
  · intro lib info p st himg
    unfold innerSave
    cases h0 : pyB64decode info.content with
    | error e => exact Or.inl rfl
    | ok data =>
      cases h1 : lib.openOk data with
      | false => simp only [h1, Bool.not_false, if_true]; exact Or.inl trivial
      | true =>
        simp only [h1, Bool.not_true, Bool.false_eq_true, if_false]
        cases h2 : lib.saveOk data p
            (strUpper (if info.image_type == "jpeg" then "jpg" else info.image_type)) with
        | false => simp only [h2, Bool.not_false, if_true]; exact Or.inl trivial
        | true =>
          simp only [h2, Bool.not_true, Bool.false_eq_true, if_false]
          rw [himg]
          simp only [beq_self_eq_true, if_true]
          right
          split <;> (try split) <;> rfl

/-- Witness for the amended C3: the concrete jpeg chart record, where the
built path ends in `".jpeg"` and the write records format `"JPG"`. -/
theorem C3_jpeg_extension_mapping_witness :
    (∃ stem, "out/chart/report.pdf_p0_0.jpeg" = stem ++ ".jpeg") ∧
    ((innerSave trueLib
        { content := .str "iVBORw0KGgo=", clean_source_name := "report.pdf",
          category := .str "chart", page_number := .int 0, image_type := "jpeg" }
        "out/chart/report.pdf_p0_0.jpeg"
        { counts := image_counts_init, fs := emptyFS, logs := [] }).fs.files =
          ([] : List (String × String)) ∨
      (innerSave trueLib
        { content := .str "iVBORw0KGgo=", clean_source_name := "report.pdf",
          category := .str "chart", page_number := .int 0, image_type := "jpeg" }
        "out/chart/report.pdf_p0_0.jpeg"
        { counts := image_counts_init, fs := emptyFS, logs := [] }).fs.files =
          [] ++ [("out/chart/report.pdf_p0_0.jpeg", "JPG")]) :=
  ⟨C3_jpeg_extension_mapping.1 true "out" 0
     { content := .str "iVBORw0KGgo=", clean_source_name := "report.pdf",
       category := .str "chart", page_number := .int 0, image_type := "jpeg" }
     emptyFS "out/chart/report.pdf_p0_0.jpeg" { dirs := ["out/chart"], files := [] }
     rfl rfl,
   C3_jpeg_extension_mapping.2.2 trueLib
     { content := .str "iVBORw0KGgo=", clean_source_name := "report.pdf",
       category := .str "chart", page_number := .int 0, image_type := "jpeg" }
     "out/chart/report.pdf_p0_0.jpeg"
     { counts := image_counts_init, fs := emptyFS, logs := [] } rfl⟩

/-- The extraction result for the page-image scenario record. -/
def infoC6 : DocInfo :=
  { content := .str "iVBORw0KGgo=", clean_source_name := "report.pdf",
    category := .str "page_image", page_number := .int 2, image_type := "png" }

/-- Counterexample to C6 as stated: the single-record page-image scenario
writes exactly one file, at `out/page_image/report.pdf_p2_0.png` — the
sanitized basename keeps the `.pdf` suffix of `report.pdf` — not at the
claimed `out/page_image/report_p2_0.png`; the returned counts are
`page_image = 1`, `total = 1`, all others `0`. -/
theorem C6_claim_counterexample :
    (save_images_to_disk trueLib [pngRecord] "out" { save_page_images := true } =
      .ok { counts := [("chart", 0), ("table", 0), ("infographic", 0),
                       ("page_image", 1), ("image", 0), ("total", 1)],
            fs := { dirs := ["out", "out/page_image"],
                    files := [("out/page_image/report.pdf_p2_0.png", "PNG")] },
            logs := [.debug "Saved page_image image: out/page_image/report.pdf_p2_0.png",
                     .info "Saved 1 images to out", .info "  - page_image: 1"] }) ∧
    ("out/page_image/report.pdf_p2_0.png" ≠ "out/page_image/report_p2_0.png") ∧
    (("out/page_image/report_p2_0.png", "PNG") ∉
      [("out/page_image/report.pdf_p2_0.png", "PNG")]) :=
  ⟨rfl, by decide, by decide⟩

/-- C6 (amended): for any image library that accepts the decoded PNG bytes,
the page-image scenario (document_type `"image"`, source
`a/b/report.pdf`, subtype `"page_image"`, page 2, image type `"png"`, with
`save_page_images` and `organize_by_type` enabled) writes exactly one file,
at `out/page_image/report.pdf_p2_0.png` in the `page_image` subdirectory,
and returns counts with `page_image = 1`, `total = 1` and every other
category `0`. -/
theorem C6_page_image_scenario (lib : ImageLib)
    (hopen : lib.openOk [137, 80, 78, 71, 13, 10, 26, 10] = true)
    (hsave : lib.saveOk [137, 80, 78, 71, 13, 10, 26, 10]
        "out/page_image/report.pdf_p2_0.png" "PNG" = true) :
    save_images_to_disk lib [pngRecord] "out" { save_page_images := true } =
      .ok { counts := [("chart", 0), ("table", 0), ("infographic", 0),
                       ("page_image", 1), ("image", 0), ("total", 1)],
            fs := { dirs := ["out", "out/page_image"],
                    files := [("out/page_image/report.pdf_p2_0.png", "PNG")] },
            logs := [.debug "Saved page_image image: out/page_image/report.pdf_p2_0.png",
                     .info "Saved 1 images to out", .info "  - page_image: 1"] } := by
  have hsave2 : lib.saveOk [137, 80, 78, 71, 13, 10, 26, 10]
      "out/page_image/report.pdf_p2_0.png"
      (strUpper (if (("png" : String) == "jpeg") = true then "jpg" else "png")) = true := by
    rw [show strUpper (if (("png" : String) == "jpeg") = true then "jpg" else "png")
        = "PNG" from rfl]
    exact hsave
  have hin : innerSave lib infoC6 "out/page_image/report.pdf_p2_0.png"
      { counts := image_counts_init, fs := { dirs := ["out", "out/page_image"], files := [] },
        logs := [] } =
      { counts := [("chart", 0), ("table", 0), ("infographic", 0),
                   ("page_image", 1), ("image", 0), ("total", 1)],
        fs := { dirs := ["out", "out/page_image"],
                files := [("out/page_image/report.pdf_p2_0.png", "PNG")] },
        logs := [.debug "Saved page_image image: out/page_image/report.pdf_p2_0.png"] } := by
    unfold innerSave
    rw [show pyB64decode infoC6.content
        = Except.ok [137, 80, 78, 71, 13, 10, 26, 10] from rfl]
    dsimp only [infoC6]
    rw [hopen]
    simp only [Bool.not_true, Bool.false_eq_true, if_false]
    rw [hsave2]
    simp only [Bool.not_true, Bool.false_eq_true, if_false]
    rfl
  have hall : processAll lib { save_page_images := true } "out" [pngRecord] 0
      { counts := image_counts_init, fs := makeDirs emptyFS "out", logs := [] } =
      { counts := [("chart", 0), ("table", 0), ("infographic", 0),
                   ("page_image", 1), ("image", 0), ("total", 1)],
        fs := { dirs := ["out", "out/page_image"],
                files := [("out/page_image/report.pdf_p2_0.png", "PNG")] },
        logs := [.debug "Saved page_image image: out/page_image/report.pdf_p2_0.png"] } := hin
  unfold save_images_to_disk
  rw [if_neg (by decide)]
  dsimp only
  rw [hall]
  rfl

/-- Witness for the amended C6: the always-succeeding library runs the
scenario to the stated result. -/
theorem C6_page_image_scenario_witness :
    save_images_to_disk trueLib [pngRecord] "out" { save_page_images := true } =
      .ok { counts := [("chart", 0), ("table", 0), ("infographic", 0),
                       ("page_image", 1), ("image", 0), ("total", 1)],
            fs := { dirs := ["out", "out/page_image"],
                    files := [("out/page_image/report.pdf_p2_0.png", "PNG")] },
            logs := [.debug "Saved page_image image: out/page_image/report.pdf_p2_0.png",
                     .info "Saved 1 images to out", .info "  - page_image: 1"] } :=
  C6_page_image_scenario trueLib rfl rfl
